import Mathlib

/-
Verification development for the Firswood Intelligence chat backend
(src/main.py): a shallow embedding of the conversation-phase state machine
(detect_phase_transition), the readiness gate (should_submit_brief), the
extraction failure handling (extract_data_with_ai), the per-request chat
handler, and the brief formatter helper (clean), together with theorems
settling the specification claims against the embedded code.

Python string primitives (lower, strip, substring containment, startswith,
endswith, slicing, single-character replace) are embedded as structural
functions over the character list of a string, so that every definition
evaluates inside the kernel.
-/

set_option maxRecDepth 4000

/-- Python s.lower(): lowercase every character (ASCII letters). -/
def pyLower (s : String) : String := ⟨s.data.map Char.toLower⟩

/-- Python s.strip(): drop leading and trailing whitespace. -/
def pyStrip (s : String) : String :=
  ⟨((s.data.dropWhile Char.isWhitespace).reverse.dropWhile Char.isWhitespace).reverse⟩

/-- Containment of one character list in another, as Python `needle in hay`. -/
def listInfix (needle : List Char) : List Char → Bool
  | [] => needle.isEmpty
  | c :: rest => needle.isPrefixOf (c :: rest) || listInfix needle rest

/-- Python `needle in hay` on strings: substring containment. -/
def substr (needle hay : String) : Bool := listInfix needle.data hay.data

/-- Python s.startswith(pre). -/
def pyStartsWith (s pre : String) : Bool := pre.data.isPrefixOf s.data

/-- Python s.endswith(suf). -/
def pyEndsWith (s suf : String) : Bool := suf.data.reverse.isPrefixOf s.data.reverse

/-- Python s[n:]. -/
def pyDrop (s : String) (n : Nat) : String := ⟨s.data.drop n⟩

/-- Python s[:-n] for n at most the length. -/
def pyDropRight (s : String) (n : Nat) : String := ⟨s.data.take (s.data.length - n)⟩

/-- Python truthiness of an optional string: None and the empty string are falsy. -/
def truthy : Option String → Bool
  | none => false
  | some s => !s.data.isEmpty

/-- A turn of the conversation transcript (the Message pydantic model of src/main.py). -/
structure Message where
  role : String
  content : String
  timestamp : Option String := none

/-- The fixed-schema extracted lead record of src/main.py (all fields optional). -/
structure LeadRecord where
  fullName : Option String := none
  workEmail : Option String := none
  company : Option String := none
  phone : Option String := none
  projectType : Option String := none
  timeline : Option String := none
  goal : Option String := none
deriving DecidableEq

/-- The project-intent keywords of detect_phase_transition (src/main.py lines 373-374). -/
def project_keywords : List String :=
  ["i want", "i need", "we need", "build", "create", "develop", "project",
   "yes i have", "yes we have"]

/-- The affirmative/scheduling keywords of detect_phase_transition (src/main.py line 381). -/
def call_keywords : List String :=
  ["schedule", "book", "call", "meeting", "talk", "discuss", "discovery", "yes"]

/-- The call-question keywords tested on the last assistant turn (src/main.py line 385). -/
def booking_ask_keywords : List String := ["discovery call", "schedule", "book"]

/-- The decline keywords of should_submit_brief (src/main.py line 458). -/
def decline_keywords : List String :=
  ["no", "not now", "maybe later", "not ready", "not yet", "later"]

/-- The content of the most recent assistant turn in the history, defaulting to the
empty string (src/main.py line 384). -/
def last_ai_msg (conversation_history : List Message) : String :=
  match conversation_history.reverse.find? (fun m => m.role == "assistant") with
  | some m => m.content
  | none => ""

/-- The phase classifier of src/main.py (detect_phase_transition, lines 367-390). -/
def detect_phase_transition (message : String) (conversation_history : List Message)
    (current_phase : String) : String :=
  let msg_lower := pyLower message
  if current_phase == "phase1" then
    if project_keywords.any (fun keyword => substr keyword msg_lower) then "phase2"
    else current_phase
  else if current_phase == "phase2" then
    if conversation_history.length > 0 then
      if booking_ask_keywords.any
          (fun word => substr word (pyLower (last_ai_msg conversation_history))) then
        if call_keywords.any (fun keyword => substr keyword msg_lower) then "phase3"
        else current_phase
      else current_phase
    else current_phase
  else current_phase

/-- The readiness gate of src/main.py (should_submit_brief, lines 441-466). -/
def should_submit_brief (extracted_data : LeadRecord)
    (old_phase new_phase user_message : String) : Bool :=
  let has_email := truthy extracted_data.workEmail
  let has_project := truthy extracted_data.projectType || truthy extracted_data.goal
  if old_phase == "phase2" && new_phase == "phase3" then
    has_email && has_project
  else if old_phase == "phase2" && new_phase == "phase2" then
    let msg_lower := pyStrip (pyLower user_message)
    if decline_keywords.any (fun keyword => substr keyword msg_lower) then
      has_email && has_project
    else false
  else false

/-- A JSON value, the possible results of json.loads in extract_data_with_ai. -/
inductive JValue where
  | jnull : JValue
  | jbool : Bool → JValue
  | jnum : Int → JValue
  | jstr : String → JValue
  | jarr : List JValue → JValue
  | jobj : List (String × JValue) → JValue

/-- The all-null fallback record returned by extract_data_with_ai on any failure
(src/main.py lines 430-438). -/
def nullLeadJson : JValue :=
  JValue.jobj
    [("fullName", JValue.jnull), ("workEmail", JValue.jnull), ("company", JValue.jnull),
     ("phone", JValue.jnull), ("projectType", JValue.jnull), ("timeline", JValue.jnull),
     ("goal", JValue.jnull)]

/-- The code-fence stripping applied to the gateway text before json.loads
(src/main.py lines 416-424). -/
def stripFences (s : String) : String :=
  let t := pyStrip s
  let t := if pyStartsWith t "```json" then pyDrop t 7 else t
  let t := if pyStartsWith t "```" then pyDrop t 3 else t
  let t := if pyEndsWith t "```" then pyDropRight t 3 else t
  pyStrip t

/-- The extraction wrapper of src/main.py (extract_data_with_ai, lines 393-438).
The gateway call is an Except value (error = the call raised) and json.loads is an
opaque parameter (none = the text raised a parse error); any failure yields the
all-null record, and a successfully parsed value is returned unvalidated. -/
def extract_data_with_ai (jsonLoads : String → Option JValue)
    (gatewayResult : Except Unit String) : JValue :=
  match gatewayResult with
  | Except.error _ => nullLeadJson
  | Except.ok text =>
    match jsonLoads (stripFences text) with
    | none => nullLeadJson
    | some v => v

/-- The field names of the LeadRecord schema, in order. -/
def leadFieldNames : List String :=
  ["fullName", "workEmail", "company", "phone", "projectType", "timeline", "goal"]

/-- Whether a JSON value has the LeadRecord shape: an object with exactly the seven
schema keys, each bound to null or a string. -/
def isLeadShape : JValue → Bool
  | JValue.jobj fields =>
    (fields.map Prod.fst == leadFieldNames)
      && fields.all (fun p =>
        match p.2 with
        | JValue.jnull => true
        | JValue.jstr _ => true
        | _ => false)
  | _ => false

/-- A concrete json.loads behaviour: Python json.loads parses the valid JSON text
[1, 2] to a two-element array; every other input is treated as a parse failure. -/
def jloadsArr : String → Option JValue :=
  fun s => if s == "[1, 2]" then some (JValue.jarr [JValue.jnum 1, JValue.jnum 2]) else none

/-- Python single-character str.replace over a character list. -/
def replaceChar (target : Char) (rep : List Char) : List Char → List Char
  | [] => []
  | c :: rest => (if c == target then rep else [c]) ++ replaceChar target rep rest

/-- Python s.replace(target, rep) for a single-character target. -/
def pyReplaceChar (s : String) (target : Char) (rep : String) : String :=
  ⟨replaceChar target rep.data s.data⟩

/-- The field formatter of the submit-brief endpoint (clean, src/main.py lines 593-600):
null, empty, and the case-insensitive sentinels n/a, null, none all map to N/A;
other values are stripped, HTML-escaped, and truncated. -/
def clean (text : Option String) (max_len : Nat) : String :=
  match text with
  | none => "N/A"
  | some t =>
    if t.data.isEmpty || pyLower t == "n/a" || pyLower t == "null" || pyLower t == "none" then
      "N/A"
    else
      let t1 := pyStrip t
      let t2 := pyReplaceChar (pyReplaceChar (pyReplaceChar t1 '&' "&amp;") '<' "&lt;") '>' "&gt;"
      if t2.data.length > max_len then (⟨t2.data.take max_len⟩ : String) ++ "..." else t2

/-- The decision-relevant outputs of the chat endpoint of src/main.py. -/
structure ChatResp where
  response : String
  conversation_phase : String
  extracted_data : Option LeadRecord
  should_submit : Bool
deriving DecidableEq

/-- The per-request chat handler of src/main.py (chat, lines 493-579), restricted to
its decision logic. The completion gateway is an Except value (error = the call
raised, mapped to an HTTP 500); the field extractor result is a parameter since
extract_data_with_ai is total. -/
def chat (message : String) (conversation_history : List Message)
    (conversation_phase : String) (gateway : Except String String)
    (extractor : LeadRecord) : Except (Nat × String) ChatResp :=
  let old_phase := conversation_phase
  let new_phase := detect_phase_transition message conversation_history conversation_phase
  let current_phase := if new_phase != old_phase then new_phase else conversation_phase
  match gateway with
  | Except.error e => Except.error (500, e)
  | Except.ok reply =>
    let gate := current_phase == "phase2" || new_phase == "phase3"
    let extracted_data := if gate then some extractor else none
    let should_submit :=
      if gate then should_submit_brief extractor old_phase new_phase message else false
    Except.ok { response := reply, conversation_phase := current_phase,
                extracted_data := extracted_data, should_submit := should_submit }

/-- The ordering of the three phases used by the claims
(phase1 below phase2 below phase3). -/
def phaseRank (p : String) : Nat :=
  if p == "phase1" then 1 else if p == "phase2" then 2 else if p == "phase3" then 3 else 0

/-- Readiness Policy B exactly as the specification states it (spec-side definition,
for comparison against should_submit_brief): the email-and-project condition is
returned when the turn transitions phase2 to phase3 or stays at phase2 with a
decline keyword in the user message; otherwise false. -/
def policyB_spec (record : LeadRecord) (old_phase new_phase user_message : String) : Bool :=
  if (old_phase == "phase2" && new_phase == "phase3")
      || (old_phase == "phase2" && new_phase == "phase2"
          && decline_keywords.any
              (fun keyword => substr keyword (pyStrip (pyLower user_message)))) then
    truthy record.workEmail && (truthy record.projectType || truthy record.goal)
  else false

/-- The extraction-gating condition exactly as claim C4 states it (spec-side
definition): next phase is phase2, or the turn is a phase2 to phase3 transition. -/
def extraction_gate_spec (old_phase new_phase : String) : Bool :=
  new_phase == "phase2" || (old_phase == "phase2" && new_phase == "phase3")

/-- Modelled from the spec: the sentinel-aware presence predicate of Readiness
Policy A (spec section 4.3). The deciding code belongs to repository revisions not
present under src/. A field is present when it is non-null and not one of the
placeholder sentinels N/A or none, compared case-insensitively. -/
def specPresent : Option String → Bool
  | none => false
  | some s => !(pyLower s == "n/a") && !(pyLower s == "none")

/-- Modelled from the spec: Readiness Policy A, the threshold gate of spec section
4.3, from repository revisions not present under src/ (src/main.py implements only
Policy B): ready = hasEmail and hasProjectInfo and hasName and (hasCompany or
hasTimeline) and turnCount at least 6, evaluated while the phase is phase2. -/
def policyA_ready (record : LeadRecord) (turnCount : Nat) : Bool :=
  specPresent record.workEmail
    && (specPresent record.projectType || specPresent record.goal)
    && specPresent record.fullName
    && (specPresent record.company || specPresent record.timeline)
    && decide (6 ≤ turnCount)

/-- A lead record with email, goal, name, and company set (for Policy A). -/
def recC2 : LeadRecord :=
  { fullName := some "Hamid Abbas", workEmail := some "hamid@emebron.com",
    company := some "Emebron", goal := some "Automate customer support" }

/-- A lead record with email and project type set. -/
def recC3 : LeadRecord := { workEmail := some "hamid@emebron.com", projectType := some "Chatbot" }

/-- A lead record with project type set but no email. -/
def recC3noEmail : LeadRecord := { projectType := some "Chatbot" }

/-- The all-none lead record. -/
def recEmpty : LeadRecord := {}

/-- A lead record whose email field holds the sentinel string N/A. -/
def recC8 : LeadRecord := { workEmail := some "N/A", projectType := some "Chatbot" }

/-- A lead record holding only sentinel strings in the gate-relevant fields. -/
def recC8b : LeadRecord := { workEmail := some "N/A", projectType := some "none" }

/-- A lead record with email and goal set. -/
def recC10 : LeadRecord :=
  { workEmail := some "lead@example.com", goal := some "Automate enquiries" }

/-- A history whose last assistant turn offers a discovery call. -/
def histC5 : List Message :=
  [{ role := "user", content := "I want to build a chatbot" },
   { role := "assistant", content := "Would you like to schedule a discovery call?" }]

theorem if_nest_and (b c : Bool) (x y : String) :
    (if b then (if c then x else y) else y) = (if b && c then x else y) := by
  cases b <;> cases c <;> rfl

theorem if_policy (a b d e : Bool) :
    (if a then e else if b then (if d then e else false) else false)
      = (if a || (b && d) then e else false) := by
  cases a <;> cases b <;> cases d <;> rfl

theorem ite_bne_self (q p : String) : (if q != p then q else p) = q := by
  by_cases h : q = p
  · subst h; exact ite_self q
  · simp [bne_iff_ne, h]

theorem detect_phase1_eq (msg : String) (h : List Message) :
    detect_phase_transition msg h "phase1"
      = if project_keywords.any (fun keyword => substr keyword (pyLower msg)) then "phase2"
        else "phase1" := rfl

theorem detect_phase3_eq (msg : String) (h : List Message) :
    detect_phase_transition msg h "phase3" = "phase3" := rfl

theorem detect_phase2_eq (msg : String) (h : List Message) :
    detect_phase_transition msg h "phase2"
      = if booking_ask_keywords.any (fun word => substr word (pyLower (last_ai_msg h)))
            && call_keywords.any (fun keyword => substr keyword (pyLower msg)) then "phase3"
        else "phase2" := by
  cases h with
  | nil => rfl
  | cons m t =>
    show (if (m :: t).length > 0 then
            (if booking_ask_keywords.any
                (fun word => substr word (pyLower (last_ai_msg (m :: t)))) then
              (if call_keywords.any (fun keyword => substr keyword (pyLower msg)) then "phase3"
               else "phase2")
             else "phase2")
          else "phase2") = _
    rw [if_pos (show (m :: t).length > 0 from Nat.succ_pos t.length)]
    exact if_nest_and _ _ _ _

/-- Claim C1: detect_phase_transition is monotone in the phase ordering
phase1 below phase2 below phase3 — for every phase among the three, every user
message, and every history, the returned phase never ranks below the input
phase, advances by at most one rank per call, and phase3 has no outgoing
transition (the input phase is returned when no transition fires). -/
theorem C1_phase_monotonic (message : String) (history : List Message) (p : String)
    (hp : p = "phase1" ∨ p = "phase2" ∨ p = "phase3") :
    phaseRank p ≤ phaseRank (detect_phase_transition message history p) ∧
    phaseRank (detect_phase_transition message history p) ≤ phaseRank p + 1 ∧
    (p = "phase3" → detect_phase_transition message history p = p) := by
  rcases hp with rfl | rfl | rfl
  · rw [detect_phase1_eq]
    refine ⟨?_, ?_, ?_⟩
    · split <;> decide
    · split <;> decide
    · intro habs
      exact absurd habs (by decide)
  · rw [detect_phase2_eq]
    refine ⟨?_, ?_, ?_⟩
    · split <;> decide
    · split <;> decide
    · intro habs
      exact absurd habs (by decide)
  · rw [detect_phase3_eq]
    exact ⟨by decide, by decide, fun _ => rfl⟩

/-- Witness for claim C1 at the concrete input (message "hello", empty history,
phase1). -/
theorem C1_phase_monotonic_witness :
    phaseRank "phase1" ≤ phaseRank (detect_phase_transition "hello" [] "phase1") ∧
    phaseRank (detect_phase_transition "hello" [] "phase1") ≤ phaseRank "phase1" + 1 ∧
    ("phase1" = "phase3" → detect_phase_transition "hello" [] "phase1" = "phase1") :=
  C1_phase_monotonic "hello" [] "phase1" (Or.inl rfl)

/-- Claim C5: from phase2, detect_phase_transition returns phase3 exactly when the
most recent assistant turn of the history, lowercased, contains a call-question
keyword and the lowercased user message contains an affirmative/scheduling
keyword, and returns phase2 otherwise; concretely, after the assistant asks
about scheduling a discovery call, the reply yes moves to phase3 while the reply
tell me more stays at phase2. -/
theorem C5_call_acceptance :
    (∀ (msg : String) (history : List Message),
        detect_phase_transition msg history "phase2"
          = if booking_ask_keywords.any
                (fun word => substr word (pyLower (last_ai_msg history)))
                && call_keywords.any (fun keyword => substr keyword (pyLower msg)) then "phase3"
            else "phase2")
    ∧ detect_phase_transition "yes" histC5 "phase2" = "phase3"
    ∧ detect_phase_transition "tell me more" histC5 "phase2" = "phase2" :=
  ⟨detect_phase2_eq, by decide, by decide⟩

/-- Claim C6: from phase1, detect_phase_transition returns phase2 exactly when the
lowercased user message contains a project-intent keyword as a substring, for
every history (pure keyword matching); concretely the message I want to build a
chatbot moves to phase2 and the message what is RAG? stays at phase1. -/
theorem C6_keyword_transition :
    (∀ (msg : String) (history : List Message),
        detect_phase_transition msg history "phase1"
          = if project_keywords.any (fun keyword => substr keyword (pyLower msg)) then "phase2"
            else "phase1")
    ∧ detect_phase_transition "I want to build a chatbot" [] "phase1" = "phase2"
    ∧ detect_phase_transition "what is RAG?" [] "phase1" = "phase1" :=
  ⟨detect_phase1_eq, by decide, by decide⟩

/-- Claim C3: should_submit_brief agrees everywhere with the spec-side Policy B
(the email-and-project condition, returned exactly when the turn transitions
phase2 to phase3 or stays at phase2 with a decline keyword in the lowercased
stripped user message, and false in every other case); concretely a phase2 to
phase3 transition with email and project type set yields true, a phase2 to
phase2 turn with message not now and email plus project set yields true, and
the same decline without an email yields false. -/
theorem C3_policyB_characterization :
    (∀ (record : LeadRecord) (old_phase new_phase user_message : String),
        should_submit_brief record old_phase new_phase user_message
          = policyB_spec record old_phase new_phase user_message)
    ∧ should_submit_brief recC3 "phase2" "phase3" "yes" = true
    ∧ should_submit_brief recC3 "phase2" "phase2" "not now" = true
    ∧ should_submit_brief recC3noEmail "phase2" "phase2" "not now" = false := by
  refine ⟨fun record o n m => ?_, by decide, by decide, by decide⟩
  show (if o == "phase2" && n == "phase3" then
          truthy record.workEmail && (truthy record.projectType || truthy record.goal)
        else if o == "phase2" && n == "phase2" then
          (if decline_keywords.any (fun keyword => substr keyword (pyStrip (pyLower m))) then
            truthy record.workEmail && (truthy record.projectType || truthy record.goal)
           else false)
        else false) = _
  exact if_policy _ _ _ _

/-- Claim C10 (implicit): decline detection in should_submit_brief is raw substring
matching, so on a phase2 to phase2 turn any user message whose lowercased
stripped text contains the letters no — also inside a longer word such as know —
is treated as a decline, and with a truthy email and a truthy project field the
gate returns true. -/
theorem C10_decline_substring (msg : String) (r : LeadRecord)
    (hno : substr "no" (pyStrip (pyLower msg)) = true)
    (hemail : truthy r.workEmail = true)
    (hproject : (truthy r.projectType || truthy r.goal) = true) :
    should_submit_brief r "phase2" "phase2" msg = true := by
  show (if ("phase2" : String) == "phase2" && ("phase2" : String) == "phase3" then
          truthy r.workEmail && (truthy r.projectType || truthy r.goal)
        else if ("phase2" : String) == "phase2" && ("phase2" : String) == "phase2" then
          (if decline_keywords.any (fun keyword => substr keyword (pyStrip (pyLower msg))) then
            truthy r.workEmail && (truthy r.projectType || truthy r.goal)
           else false)
        else false) = true
  have hany : decline_keywords.any (fun keyword => substr keyword (pyStrip (pyLower msg)))
      = true := by
    simp only [decline_keywords, List.any_cons]
    rw [hno]
    rfl
  rw [hany, hemail, hproject]
  decide

/-- Witness for claim C10: the message I know what you mean contains no inside
know, and with email and goal set the gate fires on a phase2 to phase2 turn. -/
theorem C10_decline_substring_witness :
    should_submit_brief recC10 "phase2" "phase2" "I know what you mean" = true :=
  C10_decline_substring "I know what you mean" recC10 (by decide) (by decide) (by decide)

/-- Claim C2 (Policy A is spec-modelled: the threshold gate belongs to repository
revisions not present under src/): for every lead record whose email, name,
project info, and company-or-timeline fields pass the sentinel-aware presence
predicate, the threshold gate evaluated in the qualification phase returns true
at turn count 6 and false at turn count 4. -/
theorem C2_policyA_threshold (record : LeadRecord)
    (hemail : specPresent record.workEmail = true)
    (hproject : (specPresent record.projectType || specPresent record.goal) = true)
    (hname : specPresent record.fullName = true)
    (hcompany : (specPresent record.company || specPresent record.timeline) = true) :
    policyA_ready record 6 = true ∧ policyA_ready record 4 = false := by
  unfold policyA_ready
  rw [hemail, hproject, hname, hcompany]
  exact ⟨rfl, rfl⟩

/-- Witness for claim C2: a record with email, goal, name, and company set passes
the gate at turn count 6 and fails it at turn count 4. -/
theorem C2_policyA_threshold_witness :
    policyA_ready recC2 6 = true ∧ policyA_ready recC2 4 = false :=
  C2_policyA_threshold recC2 (by decide) (by decide) (by decide) (by decide)

/-- Counterexample to claim C4: on a turn that both starts and stays in phase3
(message hello, empty history, phase3), the chat handler still invokes the field
extractor and returns its record, although the spec-side gating condition of the
claim (next phase is phase2, or a phase2 to phase3 transition) is false there. -/
theorem C4_phase3_extraction_counterexample :
    chat "hello" [] "phase3" (Except.ok "Hi there!") recEmpty
      = Except.ok { response := "Hi there!", conversation_phase := "phase3",
                    extracted_data := some recEmpty, should_submit := false }
    ∧ extraction_gate_spec "phase3" "phase3" = false
    ∧ detect_phase_transition "hello" [] "phase3" = "phase3" :=
  ⟨rfl, rfl, rfl⟩

/-- Claim C4 as amended: in the chat handler, the field extractor is invoked
exactly when the computed next phase is phase2 or phase3 — including a turn that
both starts and stays in phase3 — and in every other case extraction is skipped
and the returned extracted_data is null; the submit flag is computed by
should_submit_brief exactly when extraction runs. -/
theorem C4_extraction_gate_amended (msg : String) (history : List Message)
    (phase reply : String) (r : LeadRecord) :
    chat msg history phase (Except.ok reply) r
      = Except.ok
          { response := reply,
            conversation_phase := detect_phase_transition msg history phase,
            extracted_data :=
              if detect_phase_transition msg history phase == "phase2"
                  || detect_phase_transition msg history phase == "phase3" then some r
              else none,
            should_submit :=
              if detect_phase_transition msg history phase == "phase2"
                  || detect_phase_transition msg history phase == "phase3" then
                should_submit_brief r phase (detect_phase_transition msg history phase) msg
              else false } := by
  have hcp : (if detect_phase_transition msg history phase != phase then
                detect_phase_transition msg history phase
              else phase) = detect_phase_transition msg history phase := ite_bne_self _ _
  show (Except.ok
      { response := reply,
        conversation_phase :=
          (if detect_phase_transition msg history phase != phase then
            detect_phase_transition msg history phase
           else phase),
        extracted_data :=
          if (if detect_phase_transition msg history phase != phase then
                detect_phase_transition msg history phase
              else phase) == "phase2"
              || detect_phase_transition msg history phase == "phase3" then some r
          else none,
        should_submit :=
          if (if detect_phase_transition msg history phase != phase then
                detect_phase_transition msg history phase
              else phase) == "phase2"
              || detect_phase_transition msg history phase == "phase3" then
            should_submit_brief r phase (detect_phase_transition msg history phase) msg
          else false } : Except (Nat × String) ChatResp) = _
  rw [hcp]

/-- Counterexample to claim C7: a gateway text that is valid JSON but not of the
LeadRecord shape (the array [1, 2]) is parsed successfully and returned as-is by
extract_data_with_ai — not replaced by the all-null record the claim requires. -/
theorem C7_shape_counterexample :
    extract_data_with_ai jloadsArr (Except.ok "[1, 2]")
        = JValue.jarr [JValue.jnum 1, JValue.jnum 2]
    ∧ isLeadShape (JValue.jarr [JValue.jnum 1, JValue.jnum 2]) = false
    ∧ extract_data_with_ai jloadsArr (Except.ok "[1, 2]") ≠ nullLeadJson := by
  refine ⟨rfl, rfl, ?_⟩
  intro hcontra
  exact JValue.noConfusion hcontra

/-- Claim C7 as amended: if the gateway call inside extract_data_with_ai raises,
or the fence-stripped returned text fails to parse as JSON at all, the function
raises no exception and returns the all-null record; text that parses as valid
JSON of any shape is returned as parsed, without LeadRecord-shape validation. -/
theorem C7_failure_default (jsonLoads : String → Option JValue) (t : String)
    (hparse : jsonLoads (stripFences t) = none) :
    extract_data_with_ai jsonLoads (Except.error ()) = nullLeadJson
    ∧ extract_data_with_ai jsonLoads (Except.ok t) = nullLeadJson := by
  refine ⟨rfl, ?_⟩
  show (match jsonLoads (stripFences t) with
        | none => nullLeadJson
        | some v => v) = nullLeadJson
  rw [hparse]

/-- Witness for claim C7: a json.loads stub that fails on every input makes
extract_data_with_ai return the all-null record both when the gateway raises and
when it returns unparseable text. -/
theorem C7_failure_default_witness :
    extract_data_with_ai (fun _ => none) (Except.error ()) = nullLeadJson
    ∧ extract_data_with_ai (fun _ => none) (Except.ok "garbage") = nullLeadJson :=
  C7_failure_default (fun _ => none) "garbage" rfl

/-- Counterexample to claim C8: the readiness gate does not treat the sentinel
string N/A as absent — a record whose workEmail is N/A and whose projectType is
set makes should_submit_brief return true on a phase2 to phase3 transition, even
though the sentinel-aware presence predicate of the claim rejects that email. -/
theorem C8_sentinel_counterexample :
    should_submit_brief recC8 "phase2" "phase3" "yes" = true
    ∧ specPresent recC8.workEmail = false :=
  ⟨by decide, by decide⟩

/-- Claim C8 as amended: the field predicates of the readiness gate are plain
Python truthiness (non-null and non-empty), so sentinel strings such as N/A or
none count as present there and can fire the gate on their own; the
case-insensitive sentinel mapping (null, empty, n/a, null, none to N/A) exists
only in the clean formatter of the submit-brief endpoint. -/
theorem C8_sentinel_amended :
    truthy (some "N/A") = true
    ∧ should_submit_brief recC8b "phase2" "phase2" "not now" = true
    ∧ clean (some "N/A") 100 = "N/A"
    ∧ clean (some "n/a") 100 = "N/A"
    ∧ clean (some "NONE") 100 = "N/A"
    ∧ clean (some "null") 100 = "N/A"
    ∧ clean none 100 = "N/A"
    ∧ clean (some "Emebron") 100 = "Emebron" := by
  refine ⟨by decide, by decide, by decide, by decide, by decide, by decide, rfl, by decide⟩

/-- Claim C9: if the completion-gateway call in the chat handler raises, the whole
request fails with an HTTP 500 carrying the error detail — no partial chat
response is produced, and the handler performs no retry (the gateway is consumed
exactly once). -/
theorem C9_upstream_failure (message : String) (history : List Message)
    (phase errText : String) (r : LeadRecord) :
    chat message history phase (Except.error errText) r = Except.error (500, errText) := rfl
